import Mathlib

/-!
Verification development for the GitHub command-gateway repository
(`test-comandi-github`).  Shallow embedding of the Python sources:

* `src/types/command_types.py`  — command data model and per-command validation
* `src/types/validator.py`      — `CommandValidator`
* `src/gateway.py`              — `GitHubGateway.process_commands` pipeline
* `src/operations/git_operations.py`  — commit / push adapter
* `src/operations/file_operations.py` — file CRUD adapter
* `src/auth/device_flow_auth.py` — device-flow polling and URL parsing

Python dictionaries are embedded as structures with `Option` fields (an
absent key is `none`); raised exceptions are embedded as `Except.error`
carrying the message; external effects (git, network, filesystem) are
embedded as explicit state or as oracle environments recording the outcome
of each effectful call.
-/

namespace Gateway

/-! ## Command data model (src/types/command_types.py) -/

/-- Embedding of `CommandType` (command_types.py, lines 5-17). -/
inductive CommandType where
  | createFile
  | searchFile
  | readFile
  | modifyFile
  | deleteFile
  | pull
  | commit
  | push
  | createBranch
  | switchBranch
  | clone
deriving DecidableEq, Repr

/-- Embedding of the `CommandType(value)` enum constructor: maps the wire
string to the enum member, `none` when Python would raise `ValueError`. -/
def CommandType.ofString? : String → Option CommandType
  | "create.file" => some .createFile
  | "search.file" => some .searchFile
  | "read.file" => some .readFile
  | "modify.file" => some .modifyFile
  | "delete.file" => some .deleteFile
  | "pull" => some .pull
  | "commit" => some .commit
  | "push" => some .push
  | "create.branch" => some .createBranch
  | "switch.branch" => some .switchBranch
  | "clone" => some .clone
  | _ => none

/-- Embedding of the `GitHubCommand` dataclass (command_types.py, lines
30-54) after `__post_init__` has resolved `command` to a `CommandType`. -/
structure GitHubCommand where
  step : Int
  command : CommandType
  path : Option String := none
  content : Option String := none
deriving DecidableEq, Repr

/-- Python `str.isspace` for one character: the ASCII whitespace and
control ranges plus the Unicode space separators
(`\x85`, `\xa0`, Ogham space, the U+2000 range, line/paragraph
separators, narrow/medium spaces, ideographic space). -/
def pyIsSpace (c : Char) : Bool :=
  let n := c.toNat
  decide (n = 32 ∨ (9 ≤ n ∧ n ≤ 13) ∨ (28 ≤ n ∧ n ≤ 31) ∨ n = 133 ∨
    n = 160 ∨ n = 5760 ∨ (8192 ≤ n ∧ n ≤ 8202) ∨ n = 8232 ∨ n = 8233 ∨
    n = 8239 ∨ n = 8287 ∨ n = 12288)

/-- Python `str.strip()`: drop whitespace from both ends. -/
def pyStrip (s : String) : String :=
  String.mk (((s.data.dropWhile pyIsSpace).reverse.dropWhile
    pyIsSpace).reverse)

/-- Python `self.path is not None and len(self.path.strip()) > 0`. -/
def strippedNonEmpty : Option String → Bool
  | none => false
  | some s => (pyStrip s).length > 0

/-- Embedding of `GitHubCommand.validate` (command_types.py, lines 56-73). -/
def GitHubCommand.validate (c : GitHubCommand) : Bool :=
  if c.command = .createFile ∨ c.command = .readFile ∨
      c.command = .deleteFile ∨ c.command = .modifyFile then
    strippedNonEmpty c.path
  else if c.command = .searchFile then
    strippedNonEmpty c.content
  else if c.command = .commit then
    strippedNonEmpty c.content
  else if c.command = .createBranch ∨ c.command = .switchBranch then
    strippedNonEmpty c.path
  else
    true

/-- A raw command dictionary as received by the gateway: each field is
`none` when the corresponding key is absent. -/
structure CommandDict where
  step : Option Int := none
  command : Option String := none
  path : Option String := none
  content : Option String := none
deriving DecidableEq, Repr

/-- Embedding of `GitHubCommand.from_dict` (command_types.py, lines 46-54)
combined with `__post_init__`: missing `step` defaults to `0`, missing
`command` defaults to `""`; an unknown command string raises `ValueError`
(`Except.error`). -/
def GitHubCommand.from_dict (d : CommandDict) : Except String GitHubCommand :=
  match CommandType.ofString? (d.command.getD "") with
  | some ct => .ok { step := d.step.getD 0, command := ct, path := d.path, content := d.content }
  | none => .error ("Comando non valido: " ++ d.command.getD "")

/-! ## CommandValidator (src/types/validator.py) -/

namespace CommandValidator

/-- The attribute names the `CommandValidator` class actually defines
(validator.py defines exactly the two methods `validate_command` and
`validateCommands`).  Python attribute lookup on an instance succeeds
only for names in this list. -/
def methodNames : List String := ["validate_command", "validateCommands"]

/-- Embedding of `CommandValidator.validate_command` (validator.py, lines
7-23): builds `GitHubCommand(**command_dict)` — which requires the `step`
and `command` keys to be present (no defaults) and the command string to
name a valid `CommandType` — then calls `validate()`; any exception
yields `False`. -/
def validate_command (d : CommandDict) : Bool :=
  match d.step, d.command with
  | some st, some cs =>
    match CommandType.ofString? cs with
    | some ct => GitHubCommand.validate { step := st, command := ct, path := d.path, content := d.content }
    | none => false
  | _, _ => false

/-- Result dictionary produced by `validateCommands`:
`{"valid": ..., "error": ...}` (the `error` key is present only on
failure). -/
structure ValidationResult where
  valid : Bool
  error : Option String := none
deriving DecidableEq, Repr

/-- Dictionary-key access on a `ValidationResult`: the Python dict holds
the keys `valid` (always) and `error` (on failure); any other key lookup
raises `KeyError` (`none`).  In particular the gateway's read of
`validation_result["is_valid"]` finds no such key. -/
def ValidationResult.getBoolKey (r : ValidationResult) : String → Option Bool
  | "valid" => some r.valid
  | _ => none

/-- Loop body of `validateCommands` (validator.py, lines 42-48):
index-tracking scan for the first invalid command. -/
def validateCommandsFrom : Nat → List CommandDict → ValidationResult
  | _, [] => { valid := true }
  | i, d :: rest =>
    if validate_command d then
      validateCommandsFrom (i + 1) rest
    else
      { valid := false, error := some ("Invalid command at index " ++ toString i) }

/-- Embedding of `CommandValidator.validateCommands` (validator.py, lines
25-50).  The input is typed as a list, so the `isinstance` guard always
passes. -/
def validateCommands (cmds : List CommandDict) : ValidationResult :=
  validateCommandsFrom 0 cmds

end CommandValidator

/-! ## Gateway pipeline (src/gateway.py, `GitHubGateway.process_commands`) -/

/-- Embedding of the `ProcessedStep` dataclass (interfaces.py). -/
structure ProcessedStep where
  step : Int
  success : Bool
  message : String
  error : Option String := none
deriving DecidableEq, Repr

/-- Embedding of the `GatewayResponse` dataclass (interfaces.py); the
`repository_info` / `user_info` fields are opaque to the pipeline logic
and omitted. -/
structure GatewayResponse where
  success : Bool
  message : String
  processed_steps : List ProcessedStep
deriving DecidableEq, Repr

/-- Outcome of the adapter call an `_execute_command` dispatch performs
(the result dictionary of the file/git operation, reduced to the fields
the pipeline reads: `success`, `message`, `error`). -/
structure StepOutcome where
  success : Bool
  message : String := ""
  error : Option String := none
deriving DecidableEq, Repr

/-- Effect oracle for one pipeline run: outcomes of the effectful calls
made by `process_commands`.  `initResult` is the outcome of
`_initialize_workspace` (authentication, repository detection,
provisioning); `stepOutcome` is the adapter result `_execute_command`
obtains for a given command. -/
structure GatewayEnv where
  initResult : Except String Unit
  stepOutcome : GitHubCommand → StepOutcome

/-- Embedding of `GitHubGateway._execute_command` (gateway.py, lines
206-264): dispatches on the command kind and wraps the adapter outcome in
a `ProcessedStep` whose `step` field is always `command.step`; every
exception is caught internally, so a `ProcessedStep` is always
returned. -/
def executeCommand (oracle : GitHubCommand → StepOutcome) (c : GitHubCommand) :
    ProcessedStep :=
  let o := oracle c
  { step := c.step, success := o.success, message := o.message, error := o.error }

/-- Embedding of the command-processing loop (gateway.py, lines 172-193):
every converted command is dispatched in list order; a failing step clears
the overall flag but the loop has no early exit.  Returns the result
sequence, the overall success flag, and the trace of commands dispatched
to `_execute_command`. -/
def processLoop (oracle : GitHubCommand → StepOutcome) :
    List GitHubCommand → List ProcessedStep × Bool × List GitHubCommand
  | [] => ([], true, [])
  | c :: rest =>
    let r := executeCommand oracle c
    let (rs, ok, tr) := processLoop oracle rest
    (r :: rs, r.success && ok, c :: tr)

/-- Conversion pass of gateway.py lines 163-170: each dictionary is turned
into a `GitHubCommand` via `from_dict`; the first conversion error aborts
with `ValueError`. -/
def convertCommands : List CommandDict → Except String (List GitHubCommand)
  | [] => .ok []
  | d :: rest =>
    match GitHubCommand.from_dict d with
    | .ok c => (convertCommands rest).map (fun cs => c :: cs)
    | .error e =>
      .error ("Errore nella conversione comando step " ++
        (match d.step with | some s => toString s | none => "?") ++ ": " ++ e)

/-- Message of the `AttributeError` Python raises for
`self.validator.validate_commands` (gateway.py line 154): the
`CommandValidator` class defines no such attribute. -/
def validateAttrError : String :=
  "'CommandValidator' object has no attribute 'validate_commands'"

/-- Prefix added by the handler at gateway.py lines 203-204, which catches
every exception escaping the body and re-raises it as
`ValueError(f"Errore nella validazione comandi: {e}")`. -/
def wrapGatewayError (e : String) : String :=
  "Errore nella validazione comandi: " ++ e

/-- Continuation of `process_commands` after the batch-validation call has
produced a result dictionary (gateway.py lines 155-201).  Note the body
reads `validation_result["is_valid"]`, a key `validateCommands` never
produces (it returns the key `valid`), so this path would raise `KeyError`
even if the validation call itself succeeded. -/
def processCommandsAfterValidation (env : GatewayEnv)
    (vr : CommandValidator.ValidationResult) (cmds : List CommandDict) :
    Except String (GatewayResponse × List GitHubCommand) :=
  match vr.getBoolKey "is_valid" with
  | none => .error (wrapGatewayError "'is_valid'")
  | some isValid =>
    if !isValid then
      .error (wrapGatewayError ("Comandi non validi: " ++ (vr.error.getD "")))
    else
      match env.initResult with
      | .error e => .error (wrapGatewayError ("Errore nell'inizializzazione: " ++ e))
      | .ok _ =>
        match convertCommands cmds with
        | .error e => .error (wrapGatewayError e)
        | .ok gcmds =>
          let (steps, ok, tr) := processLoop env.stepOutcome gcmds
          .ok ({ success := ok,
                 message := if ok then "Elaborazione comandi completata"
                            else "Elaborazione completata con errori",
                 processed_steps := steps }, tr)

/-- Embedding of `GitHubGateway.process_commands` (gateway.py, lines
142-204).  The first statement of the body resolves the attribute
`validate_commands` on the validator instance; `CommandValidator` defines
only `validate_command` and `validateCommands`
(`CommandValidator.methodNames`), so the lookup raises `AttributeError`,
which the handler at lines 203-204 re-raises as `ValueError`.  The result
pairs the returned response (or raised error) with the trace of commands
dispatched to `_execute_command`. -/
def process_commands (env : GatewayEnv) (cmds : List CommandDict) :
    Except String (GatewayResponse × List GitHubCommand) :=
  if CommandValidator.methodNames.contains "validate_commands" then
    processCommandsAfterValidation env (CommandValidator.validateCommands cmds) cmds
  else
    .error (wrapGatewayError validateAttrError)

/-- Commands actually dispatched to an adapter during a run: the trace
component, empty when the run raised before reaching the loop. -/
def dispatchedCommands (env : GatewayEnv) (cmds : List CommandDict) :
    List GitHubCommand :=
  match process_commands env cmds with
  | .ok (_, tr) => tr
  | .error _ => []

/-! ## Git operation adapter (src/operations/git_operations.py) -/

/-- Persisted remote configuration of the working copy: the `origin`
remote URL, the only repository configuration `push` mutates
(`origin.set_url`). -/
structure RemoteState where
  originUrl : String
deriving DecidableEq, Repr

/-- Effect oracle for one `push` invocation (git_operations.py, lines
120-245).  `activeBranch` is `none` when HEAD is detached
(`active_branch` raises); `headsContains` models the
`self.git_repo.heads[branch_name]` lookup; `hasUpstream` is the
`tracking_branch()` test; `pushOutcome` is the outcome of the
`origin.push` call — the error message of the raised `GitCommandError`,
or the number of pushed refs. -/
structure PushEnv where
  accessToken : Option String
  branchArg : Option String
  activeBranch : Option String
  headsContains : String → Bool
  hasUpstream : Bool
  pushOutcome : Except String Nat

/-- Result dictionary returned by `push`. -/
structure PushResult where
  success : Bool
  message : String
  error : Option String := none
  branch : Option String := none
  upstreamSet : Option Bool := none
  pushedRefs : Option Nat := none
deriving DecidableEq, Repr

/-- Branch-name resolution of git_operations.py lines 134-139: explicit
argument (looked up in `heads`, raising when absent) or the current
branch (raising on detached HEAD).  `none` models the raised exception,
which the handler at line 240 converts to a failure dictionary. -/
def resolvePushBranch (env : PushEnv) : Option String :=
  match env.branchArg with
  | none => env.activeBranch
  | some b => if env.headsContains b then some b else none

/-- URL rewrite of git_operations.py lines 158-161: embed the token into
the `https://github.com/` remote URL as the transport credential. -/
def authenticatedUrl (token url : String) : String :=
  url.replace "https://github.com/"
    ("https://" ++ token ++ ":x-oauth-basic@github.com/")

/-- Body of the credential-injection block (git_operations.py lines
142-211) for a resolved branch name: embeds the token in the remote URL,
pushes, and restores the original URL in a `finally` block; every raised
exception is caught by the `except` at line 206 and converted to a
failure dictionary.  When the URL is not an `https://github.com/` URL the
rewrite is skipped and the `return result` statement at line 198 raises
`UnboundLocalError`, likewise converted to a failure.  Returns the result
dictionary and the remote configuration after the call. -/
def pushWithCredentials (env : PushEnv) (branchName : String)
    (st : RemoteState) : PushResult × RemoteState :=
  match env.accessToken with
  | none =>
    ({ success := false,
       message := "Impossibile ottenere il token OAuth per l'autenticazione",
       error := some "Token OAuth non disponibile" }, st)
  | some tok =>
    let originalUrl := st.originUrl
    if originalUrl.startsWith "https://github.com/" then
      let stAuth : RemoteState := { originUrl := authenticatedUrl tok originalUrl }
      let stRestored : RemoteState := { stAuth with originUrl := originalUrl }
      match env.pushOutcome with
      | .error e =>
        ({ success := false,
           message := "Errore nella configurazione dell'autenticazione OAuth: " ++ e,
           error := some e }, stRestored)
      | .ok n =>
        if env.hasUpstream then
          ({ success := true,
             message := "Push del branch '" ++ branchName ++ "' completata con successo",
             branch := some branchName, upstreamSet := some false,
             pushedRefs := some n }, stRestored)
        else
          ({ success := true,
             message := "Branch '" ++ branchName ++
               "' pushato e upstream configurato con successo",
             branch := some branchName, upstreamSet := some true,
             pushedRefs := some n }, stRestored)
    else
      ({ success := false,
         message := "Errore nella configurazione dell'autenticazione OAuth: " ++
           "local variable 'result' referenced before assignment",
         error := some "local variable 'result' referenced before assignment" }, st)

/-- Embedding of `GitOperationsManager.push` (git_operations.py, lines
120-245): branch resolution, credential injection, push, URL restore. -/
def GitOperationsManager.push (env : PushEnv) (st : RemoteState) :
    PushResult × RemoteState :=
  match resolvePushBranch env with
  | none =>
    ({ success := false,
       message := "Errore generico durante la push: branch non risolvibile",
       error := some "branch non risolvibile" }, st)
  | some branchName => pushWithCredentials env branchName st

/-- Effect oracle for one `commit` invocation (git_operations.py, lines
46-118).  `dirtyAfterAdd` and `untrackedAfterAdd` are the values of
`is_dirty()` / `untracked_files` observed after `git add -A`;
`localIdentity` is the `user.name`/`user.email` pair from the local
repository configuration (`none` when absent); `commitOutcome` is the
outcome of `index.commit` — the raised error message, or the pair
(hexsha, author string) of the created commit. -/
structure CommitEnv where
  dirtyAfterAdd : Bool
  untrackedAfterAdd : List String
  localIdentity : Option (String × String)
  commitOutcome : Except String (String × String)

/-- Result of `commit`, extended with the number of commit objects the
call created (0 or 1), which the Python result dictionary does not carry
but the frame property needs. -/
structure CommitResult where
  success : Bool
  message : String
  commitHash : Option String := none
  commitMessage : Option String := none
  error : Option String := none
  commitsCreated : Nat
deriving DecidableEq, Repr

/-- Embedding of `GitOperationsManager.commit` (git_operations.py, lines
46-118): stage everything (`git add -A`), return a success no-op when the
working copy is clean and has no untracked files, otherwise resolve the
identity and create the commit; a raised `GitCommandError` becomes a
failure dictionary.  The identity resolution (lines 68-97) only selects
the environment under which `index.commit` runs and cannot change the
control flow observed here. -/
def GitOperationsManager.commit (env : CommitEnv) (message : String) :
    CommitResult :=
  if !env.dirtyAfterAdd && env.untrackedAfterAdd.isEmpty then
    { success := true, message := "Nessuna modifica da committare",
      commitHash := none, commitsCreated := 0 }
  else
    match env.commitOutcome with
    | .ok (hexsha, _author) =>
      { success := true, message := "Commit creato: " ++ hexsha.take 8,
        commitHash := some hexsha, commitMessage := some message,
        commitsCreated := 1 }
    | .error e =>
      { success := false, message := "Errore durante il commit: " ++ e,
        error := some e, commitsCreated := 0 }

/-! ## Device-flow token polling (src/auth/device_flow_auth.py) -/

/-- One platform response to a token-poll request
(device_flow_auth.py, lines 111-163).  `granted ok` is a 200 response
carrying `access_token`, with `ok` the outcome of the subsequent
`_get_user_info()` call; `httpError` is a non-200 status (the loop sleeps
and retries). -/
inductive TokenResponse where
  | granted (userInfoOk : Bool)
  | pending
  | slowDown
  | expiredToken
  | accessDenied
  | otherError (name : String)
  | httpError
deriving DecidableEq, Repr

/-- Terminal status of a poll run. -/
inductive PollStatus where
  | authenticated
  | userInfoFailed
  | expiredCode
  | denied
  | unknownError (name : String)
  | timedOut
  | scriptExhausted
deriving DecidableEq, Repr

/-- Observable outcome of a poll run: terminal status, the poll interval
in force when the loop ended, and the trace of `time.sleep` durations in
order. -/
structure PollOutcome where
  status : PollStatus
  finalInterval : Nat
  sleeps : List Nat
deriving DecidableEq, Repr

/-- Embedding of the `while` loop of `poll_for_token`
(device_flow_auth.py, lines 97-174), driven by a scripted sequence of
platform responses.  `elapsed` models `time.time() - start_time`,
advanced by each `time.sleep`; the guard `elapsed < timeout` is checked
before each request.  On `authorization_pending` the loop sleeps
`interval` and retries; on `slow_down` it first increases `interval` by 5
and then sleeps the increased interval; a non-200 status sleeps and
retries; all other responses are terminal.  An exhausted script marks the
model boundary (the real loop would issue another request). -/
def pollLoop : List TokenResponse → Nat → Nat → Nat → List Nat → PollOutcome
  | responses, interval, timeout, elapsed, sleeps =>
    if elapsed < timeout then
      match responses with
      | [] => ⟨.scriptExhausted, interval, sleeps⟩
      | r :: rest =>
        match r with
        | .granted ok =>
          if ok then ⟨.authenticated, interval, sleeps⟩
          else ⟨.userInfoFailed, interval, sleeps⟩
        | .pending =>
          pollLoop rest interval timeout (elapsed + interval) (sleeps ++ [interval])
        | .slowDown =>
          pollLoop rest (interval + 5) timeout (elapsed + (interval + 5))
            (sleeps ++ [interval + 5])
        | .expiredToken => ⟨.expiredCode, interval, sleeps⟩
        | .accessDenied => ⟨.denied, interval, sleeps⟩
        | .otherError n => ⟨.unknownError n, interval, sleeps⟩
        | .httpError =>
          pollLoop rest interval timeout (elapsed + interval) (sleeps ++ [interval])
    else ⟨.timedOut, interval, sleeps⟩

/-- Embedding of `GitHubDeviceFlowAuth.poll_for_token`
(device_flow_auth.py, lines 83-174) with its default `interval=5`,
`timeout=600`. -/
def poll_for_token (responses : List TokenResponse) (interval : Nat := 5)
    (timeout : Nat := 600) : PollOutcome :=
  pollLoop responses interval timeout 0 []

/-- The session is authenticated exactly when the poll run ended with a
granted token and successful identity resolution (device_flow_auth.py,
line 124 sets `self.authenticated = True` only on that path). -/
def sessionAuthenticated (out : PollOutcome) : Bool :=
  out.status = .authenticated

/-! ## Repository URL parsing (src/auth/device_flow_auth.py, `_parse_github_url`) -/

/-- Repository reference returned by `_parse_github_url`. -/
structure RepoRef where
  owner : String
  repo : String
  full_name : String
  url : String
deriving DecidableEq, Repr

/-- Character-list prefix test (structurally recursive so that concrete
instances reduce in the kernel). -/
def listIsPrefix : List Char → List Char → Bool
  | [], _ => true
  | _ :: _, [] => false
  | p :: ps, c :: cs => p = c && listIsPrefix ps cs

/-- Python substring containment (`pat in s`) on character lists. -/
def listContainsSub (pat : List Char) : List Char → Bool
  | [] => listIsPrefix pat []
  | c :: rest => listIsPrefix pat (c :: rest) || listContainsSub pat rest

/-- Python `str.split(sep)` for a single-character separator: splits at
every occurrence, keeping empty pieces (`''.split('/') == ['']`). -/
def charSplitAux (sep : Char) : List Char → List Char → List (List Char)
  | [], acc => [acc.reverse]
  | c :: rest, acc =>
    if c = sep then acc.reverse :: charSplitAux sep rest []
    else charSplitAux sep rest (c :: acc)

/-- Split a character list at a separator character. -/
def charSplit (sep : Char) (cs : List Char) : List (List Char) :=
  charSplitAux sep cs []

/-- Fuel-driven core of Python `str.replace`: replaces every
non-overlapping occurrence of `pat`, scanning left to right.  The fuel is
instantiated with the input length, which bounds the number of scan
steps; structural recursion on it keeps concrete instances
kernel-reducible. -/
def listReplaceFuel (pat rep : List Char) : Nat → List Char → List Char
  | 0, s => s
  | _ + 1, [] => []
  | fuel + 1, c :: rest =>
    if listIsPrefix pat (c :: rest) then
      rep ++ listReplaceFuel pat rep fuel ((c :: rest).drop pat.length)
    else c :: listReplaceFuel pat rep fuel rest

/-- Python `str.replace(pat, rep)` on character lists. -/
def listReplace (pat rep s : List Char) : List Char :=
  listReplaceFuel pat rep s.length s

/-- Normalization pass of `_parse_github_url` (device_flow_auth.py, lines
274-280): rewrite the SSH form
(`url.replace('git@github.com:', 'https://github.com/')` under a
`startswith` guard) and strip a trailing `.git`. -/
def normalizeGithubUrl (url0 : String) : List Char :=
  let cs0 := url0.data
  let cs1 :=
    if listIsPrefix "git@github.com:".data cs0 then
      listReplace "git@github.com:".data "https://github.com/".data cs0
    else cs0
  if listIsPrefix ".git".data.reverse cs1.reverse then
    cs1.take (cs1.length - 4)
  else cs1

/-- The repository reference `_parse_github_url` builds from the split
URL (device_flow_auth.py, lines 286-294): `parts[-1]` is the repository
name, `parts[-2]` the owner. -/
def lastTwoRef (parts : List (List Char)) : RepoRef :=
  let repoName := String.mk (parts.getLastD [])
  let owner := String.mk ((parts.take (parts.length - 1)).getLastD [])
  { owner := owner, repo := repoName,
    full_name := owner ++ "/" ++ repoName,
    url := "https://github.com/" ++ owner ++ "/" ++ repoName }

/-- Embedding of `GitHubDeviceFlowAuth._parse_github_url`
(device_flow_auth.py, lines 263-299): normalize the SSH form, strip a
trailing `.git`, and — whenever `github.com` occurs in the result
(`'github.com' in url`) and splitting on `/` yields at least two parts —
return the last two parts as owner and repository name; otherwise return
`none`.  The whole body is wrapped in `try/except` returning `None`, so
no exception escapes. -/
def parse_github_url (url0 : String) : Option RepoRef :=
  if listContainsSub "github.com".data (normalizeGithubUrl url0) then
    if 2 ≤ (charSplit '/' (normalizeGithubUrl url0)).length then
      some (lastTwoRef (charSplit '/' (normalizeGithubUrl url0)))
    else none
  else none

/-! ## Transport encoding (Python `base64.b64decode` / `b64encode` composed
with UTF-8 text decoding, as used by the file and git adapters) -/

/-- Index of a character in the standard base64 alphabet, `none` for
characters outside it. -/
def b64Index (c : Char) : Option Nat :=
  if 'A' ≤ c ∧ c ≤ 'Z' then some (c.toNat - 65)
  else if 'a' ≤ c ∧ c ≤ 'z' then some (c.toNat - 97 + 26)
  else if '0' ≤ c ∧ c ≤ '9' then some (c.toNat - 48 + 52)
  else if c = '+' then some 62
  else if c = '/' then some 63
  else none

/-- Character of the standard base64 alphabet at a 6-bit index. -/
def b64Char (n : Nat) : Char :=
  if n < 26 then Char.ofNat (65 + n)
  else if n < 52 then Char.ofNat (97 + (n - 26))
  else if n < 62 then Char.ofNat (48 + (n - 52))
  else if n = 62 then '+'
  else '/'

/-- Regroup a list of 6-bit values into 8-bit bytes (a unit of 4 sextets
yields 3 bytes; a final unit of 2 or 3 sextets — padded input — yields 1
or 2 bytes, the low bits being discarded as `binascii` does). -/
def sextetsToBytes : List Nat → List Nat
  | a :: b :: c :: d :: rest =>
    (a * 4 + b / 16) :: ((b % 16) * 16 + c / 4) :: ((c % 4) * 64 + d) ::
      sextetsToBytes rest
  | [a, b] => [a * 4 + b / 16]
  | [a, b, c] => [a * 4 + b / 16, (b % 16) * 16 + c / 4]
  | _ => []

/-- Embedding of `base64.b64decode` (with its default `validate=False`):
characters outside the alphabet and `=` are discarded, the characters
before the first `=` form the payload, and the total of payload and
padding characters must fill whole 4-character units; otherwise
`binascii.Error` is raised (`none`). -/
def b64decodeBytes (s : String) : Option (List Nat) :=
  let kept := s.data.filter (fun c => (b64Index c).isSome || c = '=')
  let body := kept.takeWhile (fun c => c ≠ '=')
  let pad := kept.length - body.length
  let sextets := body.filterMap b64Index
  if (sextets.length + pad) % 4 = 0 ∧ sextets.length % 4 ≠ 1 then
    some (sextetsToBytes sextets)
  else none

/-- UTF-8 decoding of a byte list (Python `bytes.decode('utf-8')`):
`none` when Python would raise `UnicodeDecodeError` (stray continuation
bytes, overlong forms, surrogates, out-of-range code points). -/
def utf8DecodeBytes : List Nat → Option (List Char)
  | [] => some []
  | b1 :: rest =>
    if b1 < 128 then
      (utf8DecodeBytes rest).map (fun cs => Char.ofNat b1 :: cs)
    else if b1 < 194 then none
    else if b1 < 224 then
      match rest with
      | b2 :: rest2 =>
        if 128 ≤ b2 ∧ b2 < 192 then
          (utf8DecodeBytes rest2).map
            (fun cs => Char.ofNat ((b1 - 192) * 64 + (b2 - 128)) :: cs)
        else none
      | [] => none
    else if b1 < 240 then
      match rest with
      | b2 :: b3 :: rest3 =>
        if 128 ≤ b2 ∧ b2 < 192 ∧ 128 ≤ b3 ∧ b3 < 192 then
          let cp := (b1 - 224) * 4096 + (b2 - 128) * 64 + (b3 - 128)
          if 2048 ≤ cp ∧ ¬(55296 ≤ cp ∧ cp < 57344) then
            (utf8DecodeBytes rest3).map (fun cs => Char.ofNat cp :: cs)
          else none
        else none
      | _ => none
    else if b1 < 245 then
      match rest with
      | b2 :: b3 :: b4 :: rest4 =>
        if 128 ≤ b2 ∧ b2 < 192 ∧ 128 ≤ b3 ∧ b3 < 192 ∧ 128 ≤ b4 ∧ b4 < 192 then
          let cp := (b1 - 240) * 262144 + (b2 - 128) * 4096 +
            (b3 - 128) * 64 + (b4 - 128)
          if 65536 ≤ cp ∧ cp < 1114112 then
            (utf8DecodeBytes rest4).map (fun cs => Char.ofNat cp :: cs)
          else none
        else none
      | _ => none
    else none

/-- UTF-8 encoding of one character (Python `str.encode('utf-8')`). -/
def utf8EncodeChar (c : Char) : List Nat :=
  let n := c.toNat
  if n < 128 then [n]
  else if n < 2048 then [192 + n / 64, 128 + n % 64]
  else if n < 65536 then
    [224 + n / 4096, 128 + (n / 64) % 64, 128 + n % 64]
  else
    [240 + n / 262144, 128 + (n / 4096) % 64, 128 + (n / 64) % 64, 128 + n % 64]

/-- UTF-8 encoding of a string as a byte list. -/
def utf8Encode (s : String) : List Nat :=
  (s.data.map utf8EncodeChar).flatten

/-- Base-64 encoding of a byte list as characters (with padding), as
`base64.b64encode` does. -/
def b64encodeChars : List Nat → List Char
  | a :: b :: c :: rest =>
    b64Char (a / 4) :: b64Char ((a % 4) * 16 + b / 16) ::
      b64Char ((b % 16) * 4 + c / 64) :: b64Char (c % 64) :: b64encodeChars rest
  | [a, b] =>
    [b64Char (a / 4), b64Char ((a % 4) * 16 + b / 16), b64Char ((b % 16) * 4), '=']
  | [a] => [b64Char (a / 4), b64Char ((a % 4) * 16), '=', '=']
  | [] => []

/-- Python `base64.b64decode(content); decoded_bytes.decode('utf-8')` —
the transport decoding the adapters apply to command payloads. -/
def decodeTransport (s : String) : Option String :=
  (b64decodeBytes s).bind (fun bs => (utf8DecodeBytes bs).map String.mk)

/-- Python `base64.b64encode(content.encode('utf-8')).decode('ascii')` —
the encoding `read_file` applies to the returned content. -/
def encodeTransport (s : String) : String :=
  String.mk (b64encodeChars (utf8Encode s))

/-! ## File operation adapter (src/operations/file_operations.py) -/

/-- Fuel-driven core of Python's universal-newline translation: every
`\r\n` pair and every lone `\r` becomes `\n`.  The fuel is instantiated
with the input length, which bounds the number of steps; structural
recursion on it keeps concrete instances kernel-reducible. -/
def universalNewlinesFuel : Nat → List Char → List Char
  | 0, s => s
  | _ + 1, [] => []
  | fuel + 1, c :: rest =>
    if c = '\x0d' then
      match rest with
      | d :: rest2 =>
        if d = '\x0a' then '\x0a' :: universalNewlinesFuel fuel rest2
        else '\x0a' :: universalNewlinesFuel fuel (d :: rest2)
      | [] => ['\x0a']
    else c :: universalNewlinesFuel fuel rest

/-- Universal-newline translation applied by Python's text-mode read
(`open(p, 'r', encoding='utf-8')` with the default `newline=None`). -/
def universalNewlines (cs : List Char) : List Char :=
  universalNewlinesFuel cs.length cs

/-- What Python's default text-mode read returns for a file whose stored
content is `s`.  (Text-mode *write* with the default `newline=None`
translates `\n` to `os.linesep`, which is `\n` itself on the POSIX
systems this tool targets, so writes store the string verbatim.) -/
def pyTextRead (s : String) : String :=
  String.mk (universalNewlines s.data)

/-- The working-copy file tree under `base_path`, as a path-to-content
association list (most recent write first). -/
def Fs := List (String × String)

/-- Lookup of a path in the file tree. -/
def Fs.read? : Fs → String → Option String
  | [], _ => none
  | (q, c) :: rest, p => if q = p then some c else Fs.read? rest p

/-- Writing a file (`open(full_path, 'w')` creates or truncates). -/
def Fs.write (fs : Fs) (p c : String) : Fs := (p, c) :: fs

/-- Result dictionary of a file operation. -/
structure FileOpResult where
  success : Bool
  message : String := ""
  error : Option String := none
  content : Option String := none
  raw_content : Option String := none
deriving DecidableEq, Repr

/-- Embedding of `FileOperationsManager.create_file`
(file_operations.py, lines 15-59): decode the base64 payload when the
`content` argument is truthy (present and non-empty), report a decoding
failure without touching the tree, otherwise write the decoded text (or
the empty string) at `path`. -/
def create_file (fs : Fs) (path : String) (content : Option String) :
    FileOpResult × Fs :=
  let write (txt : String) : FileOpResult × Fs :=
    ({ success := true, message := "File creato: " ++ path },
     fs.write path txt)
  match content with
  | none => write ""
  | some c =>
    if c = "" then write ""
    else
      match decodeTransport c with
      | none =>
        ({ success := false,
           error := some "Errore nella decodifica del contenuto" }, fs)
      | some txt => write txt

/-- Embedding of `FileOperationsManager.read_file`
(file_operations.py, lines 61-99): missing files fail with
`File non trovato`; otherwise the file is read in text mode — which
applies universal-newline translation to the stored bytes — and the
result is returned base64-encoded in `content` alongside the text in
`raw_content`. -/
def read_file (fs : Fs) (path : String) : FileOpResult :=
  match fs.read? path with
  | none =>
    { success := false, error := some "File non trovato",
      message := "Il file " ++ path ++ " non esiste" }
  | some stored =>
    { success := true, message := "File letto: " ++ path,
      content := some (encodeTransport (pyTextRead stored)),
      raw_content := some (pyTextRead stored) }

/-! ## Concrete fixtures used by counterexamples and witnesses -/

/-- Step oracle under which every adapter call fails. -/
def oracleAllFail : GitHubCommand → StepOutcome :=
  fun _ => { success := false }

/-- Step oracle under which every adapter call succeeds. -/
def oracleAllOk : GitHubCommand → StepOutcome :=
  fun _ => { success := true }

/-- A two-command batch whose every step fails under `oracleAllFail`. -/
def twoStepBatch : List GitHubCommand :=
  [{ step := 1, command := .commit, content := some "bQ==" },
   { step := 2, command := .push }]

/-- A well-formed batch arriving with `step` values 3, 1, 2. -/
def unorderedBatch : List GitHubCommand :=
  [{ step := 3, command := .pull },
   { step := 1, command := .pull },
   { step := 2, command := .pull }]

/-- A batch whose only command is a `create.file` with no `path` — it is
missing a field its kind requires. -/
def invalidCreateBatch : List CommandDict :=
  [{ step := some 1, command := some "create.file" }]

/-- An effect environment whose readiness phase fails
(`_initialize_workspace` reports missing write permission). -/
def failedInitEnv : GatewayEnv :=
  { initResult := .error "Permessi di scrittura insufficienti sul repository",
    stepOutcome := fun _ => { success := true } }

/-- A well-formed single-command batch. -/
def pullBatch : List CommandDict :=
  [{ step := some 1, command := some "pull" }]

/-- A transport-encoded payload whose decoded text contains a Windows
line ending and a bare carriage return: the base64 encoding of
`"line1\r\nline2\rX"`. -/
def crPayload : String := "bGluZTENCmxpbmUyDVg="

/-! # Theorems -/

/-- Closed form of the processing loop: every command is dispatched, in
arrival order, the result of each is the wrapped adapter outcome, and the
overall flag is the conjunction of the step successes. -/
theorem processLoop_spec (oracle : GitHubCommand → StepOutcome)
    (cmds : List GitHubCommand) :
    processLoop oracle cmds =
      (cmds.map (executeCommand oracle),
       (cmds.map (executeCommand oracle)).all (fun r => r.success),
       cmds) := by
  induction cmds with
  | nil => rfl
  | cons c rest ih => simp [processLoop, ih, List.all_cons]

/-- Universal-newline translation is the identity on carriage-return-free
text, for any fuel. -/
theorem universalNewlinesFuel_no_cr : ∀ (fuel : Nat) (cs : List Char),
    '\x0d' ∉ cs → universalNewlinesFuel fuel cs = cs
  | 0, _, _ => rfl
  | _ + 1, [], _ => rfl
  | fuel + 1, c :: rest, h => by
    have hc : ¬c = '\x0d' := fun e => h (e ▸ List.mem_cons_self c rest)
    have hrest : '\x0d' ∉ rest := fun hr => h (List.mem_cons_of_mem c hr)
    simp [universalNewlinesFuel, hc,
      universalNewlinesFuel_no_cr fuel rest hrest]

/-- Python's text-mode read returns carriage-return-free content
verbatim. -/
theorem pyTextRead_no_cr (s : String) (h : '\x0d' ∉ s.data) :
    pyTextRead s = s := by
  unfold pyTextRead universalNewlines
  rw [universalNewlinesFuel_no_cr s.data.length s.data h]

/-- C1: for every effect environment and every input batch,
`GitHubGateway.process_commands` raises a `ValueError` and never returns
a `GatewayResponse`: it invokes the validator through the attribute name
`validate_commands`, which the `CommandValidator` class does not define
(it defines `validateCommands` and `validate_command`), so the resulting
`AttributeError` is caught and re-raised before any validation verdict,
readiness check, or command dispatch can occur. -/
theorem c1_process_commands_always_raises (env : GatewayEnv)
    (cmds : List CommandDict) :
    process_commands env cmds =
      .error (wrapGatewayError validateAttrError) ∧
    "validate_commands" ∉ CommandValidator.methodNames := by
  exact ⟨rfl, by decide⟩

/-- C2, counterexample: under an oracle where the step at position 0
(step value 1) produces an unsuccessful result, the command-processing
loop still executes the later command — the result sequence contains an
entry for step 2, a higher order value than the failing step 1, and the
dispatch trace shows both commands executed — refuting the claim that
execution halts at the first unsuccessful step.  (The overall flag is
indeed false.) -/
theorem c2_counterexample :
    (processLoop oracleAllFail twoStepBatch).1 =
      [{ step := 1, success := false, message := "" },
       { step := 2, success := false, message := "" }] ∧
    (processLoop oracleAllFail twoStepBatch).2.2 = twoStepBatch ∧
    (processLoop oracleAllFail twoStepBatch).2.1 = false := by
  decide

/-- C2, amended: if any step of the batch produces an unsuccessful
result, the overall success flag is false — but the loop does not halt:
every command of the batch is still executed, each contributing one entry
to the result sequence (in arrival order), and the dispatch trace covers
the whole batch. -/
theorem c2_amended (oracle : GitHubCommand → StepOutcome)
    (cmds : List GitHubCommand) (r : ProcessedStep)
    (hr : r ∈ (processLoop oracle cmds).1) (hfail : r.success = false) :
    (processLoop oracle cmds).2.1 = false ∧
    (processLoop oracle cmds).1.map ProcessedStep.step =
      cmds.map GitHubCommand.step ∧
    (processLoop oracle cmds).2.2 = cmds := by
  rw [processLoop_spec] at hr ⊢
  refine ⟨?_, ?_, rfl⟩
  · by_contra hall
    have hall' : (cmds.map (executeCommand oracle)).all
        (fun r => r.success) = true := by
      cases h : (cmds.map (executeCommand oracle)).all (fun r => r.success)
      · exact absurd h hall
      · rfl
    have := List.all_eq_true.mp hall' r hr
    rw [hfail] at this
    exact Bool.false_ne_true this
  · rw [List.map_map]
    exact List.map_congr_left (fun c _ => rfl)

/-- C2, witness for the amended theorem at a concrete failing batch. -/
theorem c2_witness :
    (processLoop oracleAllFail twoStepBatch).2.1 = false ∧
    (processLoop oracleAllFail twoStepBatch).1.map ProcessedStep.step =
      twoStepBatch.map GitHubCommand.step ∧
    (processLoop oracleAllFail twoStepBatch).2.2 = twoStepBatch :=
  c2_amended oracleAllFail twoStepBatch
    { step := 1, success := false, message := "" } (by decide) rfl

/-- C3, counterexample: a batch arriving with step values 3, 1, 2 is
dispatched in exactly that arrival order — the loop never sorts, so the
commands are not executed in the order 1, 2, 3 the claim states. -/
theorem c3_counterexample :
    ((processLoop oracleAllOk unorderedBatch).2.2).map GitHubCommand.step =
      [3, 1, 2] ∧
    ((processLoop oracleAllOk unorderedBatch).1).map ProcessedStep.step =
      [3, 1, 2] ∧
    ([3, 1, 2] : List Int) ≠ [1, 2, 3] := by
  decide

/-- C3, amended: the pipeline executes commands in arrival order — the
batch is never sorted by `step` — so the dispatch trace equals the input
batch and the result sequence carries the step values in arrival order;
in particular a batch with steps [3,1,2] is executed in the order
3, 1, 2. -/
theorem c3_amended (oracle : GitHubCommand → StepOutcome)
    (cmds : List GitHubCommand) :
    (processLoop oracle cmds).2.2 = cmds ∧
    (processLoop oracle cmds).1.map ProcessedStep.step =
      cmds.map GitHubCommand.step := by
  rw [processLoop_spec]
  refine ⟨rfl, ?_⟩
  rw [List.map_map]
  exact List.map_congr_left (fun c _ => rfl)

/-- C4: for a batch containing a command missing a field its kind
requires (`create.file` without `path`), the run performs no adapter call
— but the raised error is the `AttributeError` text, not a report of the
failing index.  The class's own `validateCommands`, which the gateway
fails to reach because it resolves the attribute `validate_commands`,
does compute exactly the report the claim (and the spec) describe:
invalid at index 0. -/
theorem c4_invalid_batch_rejected_without_index_report :
    (∀ env : GatewayEnv,
      process_commands env invalidCreateBatch =
        .error (wrapGatewayError validateAttrError) ∧
      dispatchedCommands env invalidCreateBatch = []) ∧
    CommandValidator.validateCommands invalidCreateBatch =
      { valid := false, error := some "Invalid command at index 0" } := by
  exact ⟨fun env => ⟨rfl, rfl⟩, by decide⟩

/-- C5, counterexample: with a readiness phase that fails (missing write
permission) and a well-formed batch, `process_commands` returns no
`GatewayResponse` at all — it raises a `ValueError` — so in particular it
does not return a result with exactly one synthetic failure entry. -/
theorem c5_counterexample :
    (∀ resp : GatewayResponse × List GitHubCommand,
      process_commands failedInitEnv pullBatch ≠ .ok resp) ∧
    process_commands failedInitEnv pullBatch =
      .error (wrapGatewayError validateAttrError) := by
  refine ⟨fun resp h => ?_, rfl⟩
  have h2 : (Except.error (wrapGatewayError validateAttrError) :
      Except String (GatewayResponse × List GitHubCommand)) = .ok resp := h
  exact Except.noConfusion h2

/-- C5, amended: for every batch whose readiness phase would fail, the
pipeline raises a `ValueError` and produces no per-step results; no
command of the batch is dispatched to an adapter.  (In the current code
the `validate_commands` attribute error pre-empts even the readiness
phase, so the raised error is the validation-wrapped attribute error
rather than a readiness message.) -/
theorem c5_amended (env : GatewayEnv) (cmds : List CommandDict) (e : String)
    (_h : env.initResult = .error e) :
    process_commands env cmds =
      .error (wrapGatewayError validateAttrError) ∧
    dispatchedCommands env cmds = [] :=
  ⟨rfl, rfl⟩

/-- C5, witness for the amended theorem at a concrete failing readiness
environment. -/
theorem c5_witness :
    failedInitEnv.initResult =
      .error "Permessi di scrittura insufficienti sul repository" ∧
    (process_commands failedInitEnv pullBatch =
        .error (wrapGatewayError validateAttrError) ∧
      dispatchedCommands failedInitEnv pullBatch = []) :=
  ⟨rfl, c5_amended failedInitEnv pullBatch
    "Permessi di scrittura insufficienti sul repository" rfl⟩

/-- C6: for every invocation of `push`, whatever the outcome of the push
operation (success, failure, missing token, unresolvable branch,
non-GitHub remote URL), the origin remote URL after the call equals the
origin remote URL before the call — the token embedded into the URL for
the network operation is always removed by the `finally` block and never
remains in the persisted remote configuration. -/
theorem c6_push_restores_remote_url (env : PushEnv) (st : RemoteState) :
    ((GitOperationsManager.push env st).2).originUrl = st.originUrl := by
  unfold GitOperationsManager.push
  cases hb : resolvePushBranch env with
  | none => rfl
  | some bn =>
    unfold pushWithCredentials
    cases ha : env.accessToken with
    | none => rfl
    | some tok =>
      dsimp only
      split
      · cases hp : env.pushOutcome with
        | error e => rfl
        | ok n =>
          dsimp only
          split <;> rfl
      · rfl

/-- C7: for every invocation of `commit` in a working copy where, after
staging (`git add -A`), nothing is staged and there are no untracked
files, `commit` returns success with a null commit identifier and creates
no commit object. -/
theorem c7_commit_noop_success (env : CommitEnv) (msg : String)
    (h1 : env.dirtyAfterAdd = false) (h2 : env.untrackedAfterAdd = []) :
    GitOperationsManager.commit env msg =
      { success := true, message := "Nessuna modifica da committare",
        commitHash := none, commitsCreated := 0 } := by
  unfold GitOperationsManager.commit
  rw [h1, h2]
  rfl

/-- C7, witness at a concrete clean working copy. -/
theorem c7_witness :
    GitOperationsManager.commit
      { dirtyAfterAdd := false, untrackedAfterAdd := [],
        localIdentity := none, commitOutcome := .ok ("abc123def", "A <a@b>") }
      "messaggio" =
      { success := true, message := "Nessuna modifica da committare",
        commitHash := none, commitsCreated := 0 } :=
  c7_commit_noop_success
    { dirtyAfterAdd := false, untrackedAfterAdd := [],
      localIdentity := none, commitOutcome := .ok ("abc123def", "A <a@b>") }
    "messaggio" rfl rfl

/-- C8: over the platform response sequence
[authorization_pending, authorization_pending, slow_down, token granted],
`poll_for_token` ends with the session authenticated, and after the
`slow_down` response the effective poll interval equals the initial
interval plus 5 seconds — strictly greater than the initial interval —
and that increased interval is the one in force for the remaining
attempts (the sleep trace is [i, i, i+5] and the interval at the granting
attempt is i+5).  The hypothesis keeps the run inside the wall-clock
timeout. -/
theorem c8_poll_slow_down_persists (i t : Nat) (h : 3 * i + 5 < t) :
    poll_for_token [.pending, .pending, .slowDown, .granted true] i t =
      { status := .authenticated, finalInterval := i + 5,
        sleeps := [i, i, i + 5] } ∧
    sessionAuthenticated
      (poll_for_token [.pending, .pending, .slowDown, .granted true] i t) =
      true ∧
    i < i + 5 := by
  have key : poll_for_token [.pending, .pending, .slowDown, .granted true] i t =
      { status := .authenticated, finalInterval := i + 5,
        sleeps := [i, i, i + 5] } := by
    rw [poll_for_token, pollLoop, if_pos (by omega)]
    rw [pollLoop, if_pos (by omega)]
    rw [pollLoop, if_pos (by omega)]
    rw [pollLoop, if_pos (by omega)]
    simp
  refine ⟨key, ?_, by omega⟩
  rw [key]
  rfl

/-- C8, witness at the default initial interval and timeout (5s, 600s). -/
theorem c8_witness :
    poll_for_token [.pending, .pending, .slowDown, .granted true] 5 600 =
      { status := .authenticated, finalInterval := 10,
        sleeps := [5, 5, 10] } ∧
    sessionAuthenticated
      (poll_for_token [.pending, .pending, .slowDown, .granted true] 5 600) =
      true ∧
    5 < 5 + 5 :=
  c8_poll_slow_down_persists 5 600 (by norm_num)

/-- C9, counterexample: a GitHub URL whose path has three segments is not
a detection failure — `_parse_github_url` returns the last two segments
as owner and repository (owner "b", repo "c"), refuting the claim that
parsing succeeds only when the path splits into exactly two segments. -/
theorem c9_counterexample :
    parse_github_url "https://github.com/a/b/c" =
      some { owner := "b", repo := "c", full_name := "b/c",
             url := "https://github.com/b/c" } ∧
    parse_github_url "https://github.com/a/b/c" ≠ none := by
  decide

/-- C9, amended: for every URL, parsing normalizes the SSH form to HTTPS
and strips a trailing `.git`, then succeeds — returning the last two
`/`-separated parts as owner and repo — exactly when `github.com` occurs
in the normalized string and splitting it on `/` yields at least two
parts; in every other case it returns no repository reference (and, the
function being total, no exception escapes).  So extra path segments do
not cause a failure, and even a bare host parses; in particular
`git@github.com:o/r.git` and `https://github.com/o/r` both resolve to
owner "o" and repo "r", while non-GitHub URLs fail cleanly. -/
theorem c9_amended :
    (∀ url : String,
      (listContainsSub "github.com".data (normalizeGithubUrl url) = true ∧
          2 ≤ (charSplit '/' (normalizeGithubUrl url)).length →
        parse_github_url url =
          some (lastTwoRef (charSplit '/' (normalizeGithubUrl url)))) ∧
      (¬(listContainsSub "github.com".data (normalizeGithubUrl url) = true ∧
          2 ≤ (charSplit '/' (normalizeGithubUrl url)).length) →
        parse_github_url url = none)) ∧
    parse_github_url "git@github.com:o/r.git" =
      some { owner := "o", repo := "r", full_name := "o/r",
             url := "https://github.com/o/r" } ∧
    parse_github_url "https://github.com/o/r" =
      some { owner := "o", repo := "r", full_name := "o/r",
             url := "https://github.com/o/r" } ∧
    parse_github_url "https://github.com/a/b/c" =
      some { owner := "b", repo := "c", full_name := "b/c",
             url := "https://github.com/b/c" } ∧
    parse_github_url "https://github.com" =
      some { owner := "", repo := "github.com",
             full_name := "/github.com",
             url := "https://github.com//github.com" } ∧
    parse_github_url "ssh://example.org/x.git" = none ∧
    parse_github_url "git@gitlab.example.org:o/r.git" = none := by
  refine ⟨fun url => ⟨?_, ?_⟩, by decide, by decide, by decide, by decide,
    by decide, by decide⟩
  · rintro ⟨h1, h2⟩
    unfold parse_github_url
    rw [if_pos h1, if_pos h2]
  · intro hno
    unfold parse_github_url
    by_cases h1 : listContainsSub "github.com".data (normalizeGithubUrl url) = true
    · rw [if_pos h1]
      by_cases h2 : 2 ≤ (charSplit '/' (normalizeGithubUrl url)).length
      · exact absurd ⟨h1, h2⟩ hno
      · rw [if_neg h2]
    · rw [if_neg h1]

/-- C9, witness: the amended theorem's universal success branch applied
at a concrete four-segment URL, discharging its hypothesis. -/
theorem c9_witness :
    parse_github_url "https://github.com/x/y/z" =
      some { owner := "y", repo := "z", full_name := "y/z",
             url := "https://github.com/y/z" } := by
  have h := (c9_amended.1 "https://github.com/x/y/z").1 (by decide)
  rw [h]
  decide

/-- C10, counterexample: the payload `crPayload` decodes successfully to
`"line1\r\nline2\rX"`, and `create_file` writes exactly that text — but
`read_file` opens the file in text mode, whose universal-newline
translation turns `\r\n` and `\r` into `\n`, so the returned content is
`"line1\nline2\nX"`, not the decoded payload.  This refutes the claim
for every payload whose decoded text contains a carriage return. -/
theorem c10_counterexample :
    decodeTransport crPayload = some "line1\r\nline2\rX" ∧
    (create_file [] "note.txt" (some crPayload)).1.success = true ∧
    (read_file (create_file [] "note.txt" (some crPayload)).2
      "note.txt").raw_content = some "line1\nline2\nX" ∧
    ("line1\nline2\nX" : String) ≠ "line1\r\nline2\rX" := by
  decide

/-- C10, amended: for every file tree, path, and transport-encoded
payload that decodes successfully, `create_file` followed by `read_file`
on the same path succeeds and returns the decoded payload with Python's
universal-newline read translation applied (`\r\n` and lone `\r` become
`\n`); in particular, payloads whose decoded text contains no carriage
return are returned verbatim. -/
theorem c10_amended (fs : Fs) (path payload v : String)
    (h : decodeTransport payload = some v) :
    (create_file fs path (some payload)).1.success = true ∧
    (read_file (create_file fs path (some payload)).2 path).success = true ∧
    (read_file (create_file fs path (some payload)).2 path).raw_content =
      some (pyTextRead v) ∧
    ('\x0d' ∉ v.data →
      (read_file (create_file fs path (some payload)).2 path).raw_content =
        some v) := by
  have hcreate : create_file fs path (some payload) =
      ({ success := true, message := "File creato: " ++ path },
        fs.write path v) := by
    by_cases hp : payload = ""
    · subst hp
      have hv : v = "" := by
        have h0 : decodeTransport "" = some "" := rfl
        rw [h0] at h
        exact (Option.some_injective _ h).symm
      subst hv
      rfl
    · simp [create_file, if_neg hp, h]
  rw [hcreate]
  refine ⟨rfl, ?_, ?_, fun hcr => ?_⟩
  · simp [read_file, Fs.write, Fs.read?]
  · simp [read_file, Fs.write, Fs.read?]
  · simp [read_file, Fs.write, Fs.read?, pyTextRead_no_cr v hcr]

/-- C10, witness for the amended theorem at the concrete
carriage-return-containing payload. -/
theorem c10_witness :
    (create_file [] "docs/nota.txt" (some crPayload)).1.success = true ∧
    (read_file (create_file [] "docs/nota.txt" (some crPayload)).2
      "docs/nota.txt").success = true ∧
    (read_file (create_file [] "docs/nota.txt" (some crPayload)).2
      "docs/nota.txt").raw_content = some (pyTextRead "line1\r\nline2\rX") ∧
    ('\x0d' ∉ ("line1\r\nline2\rX" : String).data →
      (read_file (create_file [] "docs/nota.txt" (some crPayload)).2
        "docs/nota.txt").raw_content = some "line1\r\nline2\rX") :=
  c10_amended [] "docs/nota.txt" crPayload "line1\r\nline2\rX" (by decide)
